import Mathlib

/-!
Verification of the process-diagram extraction demo (`src/main.py`).

The script's data model (a closed equipment-type enumeration, equipment
instances, connections, and the ExtractionResult / `EquipmentExtraction`
record), its base64 image encoder, its prompt and request construction, the
pyvis node/edge build loops, and the control flow of the "Analyze Diagram"
click handler are embedded shallowly below.  Effectful steps (file read,
network call, graph save/embed) are modelled by passing their outcomes as
`Except` values into the pure control-flow function, mirroring exactly which
statements sit inside and outside the handler's `try` block.
-/

namespace ProcessId

/-- The closed enumeration of equipment types (`EquipmentEnum` in
`src/main.py`, lines 18-33): fifteen members. -/
inductive EquipmentEnum where
  | Reactor
  | Mixer
  | HeatExchanger
  | DistillationColumn
  | Absorber
  | Scrubber
  | Evaporator
  | Condenser
  | Separator
  | Filter
  | Centrifuge
  | Pump
  | Compressor
  | Valve
  | Other
deriving DecidableEq, Repr

/-- The string value of each enum member, exactly as written in the source
(`Reactor = "Reactor"`, `HeatExchanger = "Heat Exchanger"`, ...). -/
def EquipmentEnum.value : EquipmentEnum → String
  | .Reactor => "Reactor"
  | .Mixer => "Mixer"
  | .HeatExchanger => "Heat Exchanger"
  | .DistillationColumn => "Distillation Column"
  | .Absorber => "Absorber"
  | .Scrubber => "Scrubber"
  | .Evaporator => "Evaporator"
  | .Condenser => "Condenser"
  | .Separator => "Separator"
  | .Filter => "Filter"
  | .Centrifuge => "Centrifuge"
  | .Pump => "Pump"
  | .Compressor => "Compressor"
  | .Valve => "Valve"
  | .Other => "Other"

/-- All fifteen members, in declaration order (the order Python iterates the
enum in, used by the prompt's `', '.join`). -/
def EquipmentEnum.all : List EquipmentEnum :=
  [.Reactor, .Mixer, .HeatExchanger, .DistillationColumn, .Absorber, .Scrubber,
   .Evaporator, .Condenser, .Separator, .Filter, .Centrifuge, .Pump,
   .Compressor, .Valve, .Other]

/-- Pydantic's validation of an `EquipmentEnum` field: a string is accepted
exactly when it is the value of one of the fifteen members; anything else is
rejected (a parse error), not coerced. -/
def parseEquipmentEnum (s : String) : Option EquipmentEnum :=
  EquipmentEnum.all.find? (fun t => t.value == s)

/-- Model of `EquipmentInstance` (lines 37-39): an id plus an equipment type. -/
structure EquipmentInstance where
  id : String
  type : EquipmentEnum
deriving DecidableEq, Repr

/-- Model of `Connection` (lines 43-47): endpoint ids and the (denormalized)
endpoint types. -/
structure Connection where
  from_id : String
  from_type : EquipmentEnum
  to_id : String
  to_type : EquipmentEnum
deriving DecidableEq, Repr

/-- Model of `EquipmentExtraction` (lines 51-53): the full structured result. -/
structure EquipmentExtraction where
  equipment : List EquipmentInstance
  connections : List Connection
deriving DecidableEq, Repr

/-! ## Base64 image encoder (`encode_image`, lines 57-60) -/

/-- The standard base64 alphabet used by `base64.b64encode`. -/
def base64Alphabet : List Char :=
  "ABCDEFGHIJKLMNOPQRSTUVWXYZabcdefghijklmnopqrstuvwxyz0123456789+/".toList

/-- Character for a 6-bit group. -/
def base64Char (n : Nat) : Char := base64Alphabet.getD n 'A'

/-- RFC 4648 base64 of a byte list (bytes as naturals < 256), three bytes at
a time with `=` padding, as `base64.b64encode` computes it. -/
def b64encodeChars : List Nat → List Char
  | [] => []
  | [a] => [base64Char (a / 4 % 64), base64Char (a % 4 * 16), '=', '=']
  | [a, b] => [base64Char (a / 4 % 64), base64Char (a % 4 * 16 + b / 16 % 16),
               base64Char (b % 16 * 4), '=']
  | a :: b :: c :: rest =>
      base64Char (a / 4 % 64) :: base64Char (a % 4 * 16 + b / 16 % 16) ::
      base64Char (b % 16 * 4 + c / 64 % 4) :: base64Char (c % 64) ::
      b64encodeChars rest

/-- Model of `base64.b64encode(...).decode("utf-8")` applied to the file's bytes. -/
def b64encode (bytes : List Nat) : String := String.mk (b64encodeChars bytes)

/-- Model of `encode_image(image_path)`: open and read the file (the filesystem is
modelled as a partial map from paths to byte lists; a missing/unreadable file
raises, modelled as `Except.error`), then base64-encode the bytes read. -/
def encode_image (fs : String → Option (List Nat)) (image_path : String) :
    Except String String :=
  match fs image_path with
  | none => Except.error ("No such file or directory: " ++ image_path)
  | some bytes => Except.ok (b64encode bytes)

/-- Sanity check: the classic RFC 4648 vector "Man" (bytes 77 97 110). -/
theorem b64encode_man : b64encode [77, 97, 110] = "TWFu" := by decide

/-! ## Sample images and prompt (lines 64-67, 101-109) -/

/-- Model of `sample_images`: display name to local path. -/
def sample_images : List (String × String) :=
  [("Process Diagram 1", "images/pfd.png"),
   ("Process Diagram 2", "images/pfd.jpg")]

/-- The comma-joined list of allowed type values interpolated into the
prompt: `', '.join([e.value for e in EquipmentEnum])`. -/
def allowedTypesJoined : String :=
  String.intercalate ", " (EquipmentEnum.all.map EquipmentEnum.value)

/-- The instruction sentence of the prompt that requests mapping
unrecognized categories to Other (line 105 of the source). -/
def otherInstruction : String :=
  "For any equipment that does not fall into these categories, use 'Other'. "

/-- The prompt string built at lines 101-109, concatenated in source order. -/
def prompt : String :=
  "View the process diagram image provided below. " ++
  "Identify each instance of chemical process equipment and assign a unique identifier (for example, E1, E2, etc.) to each. " ++
  ("Classify each instance using one of the following types: " ++ allowedTypesJoined ++ ". ") ++
  otherInstruction ++
  "Also, determine how these equipment instances are connected. " ++
  "For each connection, provide an object with 'from_id', 'from_type', 'to_id', and 'to_type' corresponding to the unique identifiers and equipment types of the connected equipment. " ++
  "Return a JSON object with two keys: 'equipment' and 'connections'."

/-! ## Request construction (lines 114-127) -/

/-- The outbound chat request: model name, system-role instruction, and the
user-role message's text part and image part (data URI plus detail hint),
exactly as assembled at lines 114-127. -/
structure ChatRequest where
  model : String
  systemContent : String
  userText : String
  userImageUrl : String
  userImageDetail : String
deriving DecidableEq, Repr

/-- The request built from the base64-encoded image.  The image is embedded
as `f"data:image/jpeg;base64,{base64_image}"` (line 122) — the media type is
the literal `image/jpeg` regardless of the selected file. -/
def buildRequest (base64_image : String) : ChatRequest :=
  { model := "gpt-4o-2024-08-06"
    systemContent := "Extract the chemical process equipment with unique identifiers and their connectivity from the process diagram."
    userText := prompt
    userImageUrl := "data:image/jpeg;base64," ++ base64_image
    userImageDetail := "high" }

/-- The media type a data URI declares: the text after `data:` and before
the first `;`. -/
def declaredMediaType (url : String) : String :=
  String.mk (((url.toList).drop 5).takeWhile (fun c => c != ';'))

/-! ## Structured dump (`st.json(extraction.dict())`, line 136) -/

/-- Pydantic `.dict()` of one equipment instance: its two fields as
key/value pairs (the enum serializing as its string value). -/
def EquipmentInstance.dict (e : EquipmentInstance) : List (String × String) :=
  [("id", e.id), ("type", e.type.value)]

/-- Pydantic `.dict()` of one connection: its four fields as key/value
pairs. -/
def Connection.dict (c : Connection) : List (String × String) :=
  [("from_id", c.from_id), ("from_type", c.from_type.value),
   ("to_id", c.to_id), ("to_type", c.to_type.value)]

/-- The dictionary passed to `st.json`: the two top-level keys with the
per-record dicts. -/
structure ExtractionDict where
  equipment : List (List (String × String))
  connections : List (List (String × String))
deriving DecidableEq, Repr

/-- Model of `extraction.dict()`. -/
def EquipmentExtraction.dict (r : EquipmentExtraction) : ExtractionDict :=
  { equipment := r.equipment.map EquipmentInstance.dict
    connections := r.connections.map Connection.dict }

/-! ## Graph build (pyvis loops, lines 142-154) -/

/-- One `net.add_node(eq.id, label=label, title=label)` call. -/
structure NodeOp where
  id : String
  label : String
  title : String
deriving DecidableEq, Repr

/-- One `net.add_edge(conn.from_id, conn.to_id, title=edge_label)` call.
pyvis names the second positional argument `to`; that is a reserved word
here, so the field is `toId`. -/
structure EdgeOp where
  source : String
  toId : String
  title : String
deriving DecidableEq, Repr

/-- The pyvis `Network` as the script uses it: the sequence of node-add and
edge-add calls issued to it.  `add_node` / `add_edge` record the call. -/
structure Network where
  nodes : List NodeOp
  edges : List EdgeOp
deriving DecidableEq, Repr

def Network.add_node (net : Network) (id label title : String) : Network :=
  { net with nodes := net.nodes ++ [{ id := id, label := label, title := title }] }

def Network.add_edge (net : Network) (source toId title : String) : Network :=
  { net with edges := net.edges ++ [{ source := source, toId := toId, title := title }] }

/-- Model of `label = f"{eq.id}: {eq.type}"` (line 147), the enum rendering as its
string value. -/
def nodeLabel (e : EquipmentInstance) : String := e.id ++ ": " ++ e.type.value

/-- Model of `edge_label = f"{conn.from_type} to {conn.to_type}"` (line 153). -/
def edgeLabel (c : Connection) : String :=
  c.from_type.value ++ " to " ++ c.to_type.value

/-- The `for eq in extraction.equipment` loop (lines 146-148). -/
def addEquipmentNodes (net : Network) : List EquipmentInstance → Network
  | [] => net
  | e :: rest => addEquipmentNodes (net.add_node e.id (nodeLabel e) (nodeLabel e)) rest

/-- The `for conn in extraction.connections` loop (lines 152-154).  No check
of `from_id` / `to_id` against the node ids is performed before the call. -/
def addConnectionEdges (net : Network) : List Connection → Network
  | [] => net
  | c :: rest => addConnectionEdges (net.add_edge c.from_id c.to_id (edgeLabel c)) rest

/-- The whole graph build: a fresh `Network` (line 142), the node loop, then
the edge loop. -/
def buildGraph (r : EquipmentExtraction) : Network :=
  addConnectionEdges (addEquipmentNodes { nodes := [], edges := [] } r.equipment)
    r.connections

/-! ## The Analyze Diagram click handler (lines 90-172) -/

/-- Observable outcome of one click: whether the network call was issued,
what (if anything) `st.json` rendered, whether the graph was embedded,
the `st.error` message (if any), and an exception that escaped the handler
uncaught (if any). -/
structure FlowResult where
  networkAttempted : Bool
  jsonDumpShown : Option ExtractionDict
  graphShown : Bool
  errorMsg : Option String
  uncaught : Option String
deriving DecidableEq, Repr

/-- The click handler's control flow (lines 90-172).  `enc` is the outcome
of `encode_image` — evaluated at line 93, BEFORE the `try` block, so its
error escapes uncaught.  `svc` is the outcome of the
`client.beta.chat.completions.parse` network call (line 114, inside `try`).
After a successful parse, `st.json(extraction.dict())` renders the dump
(line 136), then the graph is built, saved, read back and embedded
(lines 142-167); `renderGraph` is the outcome of that tail.  Any exception
inside the `try` lands in the `except` (lines 170-172), which displays
`"Error processing the request: " + str(e)`; output already rendered before
the exception is not withdrawn. -/
def clickFlow (enc : Except String String)
    (svc : ChatRequest → Except String EquipmentExtraction)
    (renderGraph : EquipmentExtraction → Except String Unit) : FlowResult :=
  match enc with
  | Except.error e =>
      { networkAttempted := false, jsonDumpShown := none, graphShown := false
        errorMsg := none, uncaught := some e }
  | Except.ok base64_image =>
      match svc (buildRequest base64_image) with
      | Except.error e =>
          { networkAttempted := true, jsonDumpShown := none, graphShown := false
            errorMsg := some ("Error processing the request: " ++ e)
            uncaught := none }
      | Except.ok extraction =>
          match renderGraph extraction with
          | Except.error e =>
              { networkAttempted := true
                jsonDumpShown := some extraction.dict, graphShown := false
                errorMsg := some ("Error processing the request: " ++ e)
                uncaught := none }
          | Except.ok _ =>
              { networkAttempted := true
                jsonDumpShown := some extraction.dict, graphShown := true
                errorMsg := none, uncaught := none }

/-! ## Helper lemmas on the graph-build loops -/

/-- Unfolding the node loop: it appends exactly one node op per equipment
entry, in order, and leaves the edges untouched. -/
theorem addEquipmentNodes_eq (net : Network) (l : List EquipmentInstance) :
    addEquipmentNodes net l =
      { nodes := net.nodes ++ l.map (fun e =>
          { id := e.id, label := nodeLabel e, title := nodeLabel e })
        edges := net.edges } := by
  induction l generalizing net with
  | nil => simp [addEquipmentNodes]
  | cons e rest ih => simp [addEquipmentNodes, Network.add_node, ih]

/-- Unfolding the edge loop: it appends exactly one edge op per connection,
in order, and leaves the nodes untouched. -/
theorem addConnectionEdges_eq (net : Network) (l : List Connection) :
    addConnectionEdges net l =
      { nodes := net.nodes
        edges := net.edges ++ l.map (fun c =>
          { source := c.from_id, toId := c.to_id, title := edgeLabel c }) } := by
  induction l generalizing net with
  | nil => simp [addConnectionEdges]
  | cons c rest ih => simp [addConnectionEdges, Network.add_edge, ih]

/-- The whole graph build in closed form. -/
theorem buildGraph_eq (r : EquipmentExtraction) :
    buildGraph r =
      { nodes := r.equipment.map (fun e =>
          { id := e.id, label := nodeLabel e, title := nodeLabel e })
        edges := r.connections.map (fun c =>
          { source := c.from_id, toId := c.to_id, title := edgeLabel c }) } := by
  simp [buildGraph, addEquipmentNodes_eq, addConnectionEdges_eq]

/-- A concrete two-equipment, one-connection extraction result, used by the
example-based claims. -/
def sampleTwoNodeResult : EquipmentExtraction :=
  { equipment := [{ id := "E1", type := .Reactor }, { id := "E2", type := .Pump }]
    connections := [{ from_id := "E1", from_type := .Reactor,
                      to_id := "E2", to_type := .Pump }] }

/-! ## Claim theorems -/

/-- Claim C3: for every ExtractionResult, the graph renderer issues exactly
one add-node call per equipment entry, labeled `"id: type"` (both as `label`
and `title`), and exactly one add-edge call per connection entry, titled
`"from_type to to_type"`, in order, with nothing else added. -/
theorem one_node_per_equipment_one_edge_per_connection (r : EquipmentExtraction) :
    (buildGraph r).nodes = r.equipment.map (fun e =>
      { id := e.id, label := e.id ++ ": " ++ e.type.value,
        title := e.id ++ ": " ++ e.type.value }) ∧
    (buildGraph r).edges = r.connections.map (fun c =>
      { source := c.from_id, toId := c.to_id,
        title := c.from_type.value ++ " to " ++ c.to_type.value }) ∧
    (buildGraph r).nodes.length = r.equipment.length ∧
    (buildGraph r).edges.length = r.connections.length := by
  refine ⟨?_, ?_, ?_, ?_⟩ <;> simp [buildGraph_eq, nodeLabel, edgeLabel]

/-- Claim C5: the edge loop performs no validation of `from_id` / `to_id`
against the node ids: even when a connection's `from_id` (or `to_id`)
matches no equipment id, its edge op is still issued unchanged, and the
build completes (it is a total function — every connection yields exactly
one edge op, never an error). -/
theorem dangling_edge_passed_through (r : EquipmentExtraction) (c : Connection)
    (hc : c ∈ r.connections)
    (_hdangling : c.from_id ∉ (buildGraph r).nodes.map NodeOp.id ∨
                  c.to_id ∉ (buildGraph r).nodes.map NodeOp.id) :
    ({ source := c.from_id, toId := c.to_id, title := edgeLabel c } : EdgeOp) ∈
      (buildGraph r).edges ∧
    (buildGraph r).edges.length = r.connections.length := by
  refine ⟨?_, ?_⟩
  · rw [buildGraph_eq]
    exact List.mem_map.mpr ⟨c, hc, rfl⟩
  · simp [buildGraph_eq]

/-- An extraction result whose single connection references equipment ids
that do not exist (its equipment list is empty): a dangling reference. -/
def danglingOnlyResult : EquipmentExtraction :=
  { equipment := []
    connections := [{ from_id := "E1", from_type := .Reactor,
                      to_id := "E2", to_type := .Pump }] }

/-- Witness for C5 at a concrete dangling connection: an extraction result
with no equipment at all and one connection E1 → E2 still yields that edge,
with both endpoints absent from the (empty) node list. -/
theorem dangling_edge_passed_through_witness :
    ({ source := "E1", toId := "E2", title := "Reactor to Pump" } : EdgeOp) ∈
      (buildGraph danglingOnlyResult).edges ∧
    (buildGraph danglingOnlyResult).edges.length =
      danglingOnlyResult.connections.length :=
  dangling_edge_passed_through danglingOnlyResult
    { from_id := "E1", from_type := .Reactor, to_id := "E2", to_type := .Pump }
    (by decide) (Or.inl (by decide))

/-- Claim C9: an ExtractionResult with zero equipment and zero connections
renders an empty graph — zero nodes, zero edges — and the build, being a
total function, raises nothing. -/
theorem empty_extraction_renders_empty_graph :
    buildGraph { equipment := [], connections := [] } =
      { nodes := [], edges := [] } := rfl

/-- Claim C7: on the two-equipment (E1 Reactor, E2 Pump), one-connection
example, the renderer produces exactly 2 nodes and 1 edge, and
`extraction.dict()` carries the connection's four fields with their values
unchanged. -/
theorem concrete_two_nodes_one_edge_dump :
    (buildGraph sampleTwoNodeResult).nodes.length = 2 ∧
    (buildGraph sampleTwoNodeResult).edges.length = 1 ∧
    sampleTwoNodeResult.dict.connections =
      [[("from_id", "E1"), ("from_type", "Reactor"),
        ("to_id", "E2"), ("to_type", "Pump")]] ∧
    sampleTwoNodeResult.dict.equipment =
      [[("id", "E1"), ("type", "Reactor")], [("id", "E2"), ("type", "Pump")]] := by
  decide

/-- Claim C8: the image encoder is deterministic — encoding the same byte
sequence twice yields identical base64 output (the encoder is a pure
function of the bytes read). -/
theorem encode_image_deterministic (bytes₁ bytes₂ : List Nat)
    (h : bytes₁ = bytes₂) : b64encode bytes₁ = b64encode bytes₂ := by
  rw [h]

/-- Witness for C8 on the bytes of "Man" (77, 97, 110). -/
theorem encode_image_deterministic_witness :
    b64encode [77, 97, 110] = b64encode [77, 97, 110] :=
  encode_image_deterministic [77, 97, 110] [77, 97, 110] rfl

/-- The part of the prompt preceding the map-to-Other instruction. -/
def promptBeforeOther : String :=
  "View the process diagram image provided below. " ++
  "Identify each instance of chemical process equipment and assign a unique identifier (for example, E1, E2, etc.) to each. " ++
  ("Classify each instance using one of the following types: " ++ allowedTypesJoined ++ ". ")

/-- The part of the prompt following the map-to-Other instruction. -/
def promptAfterOther : String :=
  "Also, determine how these equipment instances are connected. " ++
  "For each connection, provide an object with 'from_id', 'from_type', 'to_id', and 'to_type' corresponding to the unique identifiers and equipment types of the connected equipment. " ++
  "Return a JSON object with two keys: 'equipment' and 'connections'."

/-- Claim C6: the equipment-type enumeration is closed — schema validation
accepts a string only as one of the fifteen members (so in every parsed
ExtractionResult each type is one of those fifteen literal values) — and the
mapping of unrecognized categories to Other is imposed through the prompt,
which carries the instruction "For any equipment that does not fall into
these categories, use 'Other'." verbatim. -/
theorem equipment_type_closed (s : String) (t : EquipmentEnum)
    (h : parseEquipmentEnum s = some t) :
    t ∈ EquipmentEnum.all ∧ s = t.value ∧ EquipmentEnum.all.length = 15 ∧
    ∃ p q, prompt = p ++ otherInstruction ++ q := by
  have h' : EquipmentEnum.all.find? (fun u => u.value == s) = some t := h
  refine ⟨List.mem_of_find?_eq_some h', ?_, by decide,
    promptBeforeOther, promptAfterOther, ?_⟩
  · have hb : (t.value == s) = true :=
      @List.find?_some EquipmentEnum (fun u => u.value == s) t EquipmentEnum.all h'
    exact (eq_of_beq hb).symm
  · simp [prompt, promptBeforeOther, promptAfterOther, String.append_assoc]

/-- Witness for C6 at the literal value "Reactor". -/
theorem equipment_type_closed_witness :
    EquipmentEnum.Reactor ∈ EquipmentEnum.all ∧
    "Reactor" = EquipmentEnum.Reactor.value ∧
    EquipmentEnum.all.length = 15 ∧
    ∃ p q, prompt = p ++ otherInstruction ++ q :=
  equipment_type_closed "Reactor" EquipmentEnum.Reactor (by decide)

/-- Claim C10: the outbound request always declares the media type
`image/jpeg` in its data URI, whatever sample image is selected — the URL is
the literal `data:image/jpeg;base64,` prefix plus the base64 payload — even
though the sample set includes a `.png` file. -/
theorem request_media_type_always_jpeg (name path : String)
    (_h : (name, path) ∈ sample_images) (base64_image : String) :
    (buildRequest base64_image).userImageUrl =
      "data:image/jpeg;base64," ++ base64_image ∧
    declaredMediaType (buildRequest base64_image).userImageUrl = "image/jpeg" ∧
    ("Process Diagram 1", "images/pfd.png") ∈ sample_images ∧
    "images/pfd.png" = "images/pfd" ++ ".png" :=
  ⟨rfl, rfl, by decide, by decide⟩

/-- Witness for C10 at the PNG sample with payload "QUJD". -/
theorem request_media_type_always_jpeg_witness :
    (buildRequest "QUJD").userImageUrl = "data:image/jpeg;base64," ++ "QUJD" ∧
    declaredMediaType (buildRequest "QUJD").userImageUrl = "image/jpeg" ∧
    ("Process Diagram 1", "images/pfd.png") ∈ sample_images ∧
    "images/pfd.png" = "images/pfd" ++ ".png" :=
  request_media_type_always_jpeg "Process Diagram 1" "images/pfd.png"
    (by decide) "QUJD"

/-- Counterexample for C1: the claim that EVERY error in the click flow —
image encoding included — is caught and turned into a user-visible message,
with no output left rendered on failure, is false on two counts.
(1) `encode_image` runs at line 93, before the `try` block beginning at
line 111: its error yields no `st.error` message (`errorMsg = none`) and
escapes uncaught.  (2) a failure during graph rendering happens after
`st.json` has already run, so the structured dump is left rendered. -/
theorem click_flow_errors_not_all_caught :
    (clickFlow (Except.error "No such file or directory: images/pfd.png")
      (fun _ => Except.ok sampleTwoNodeResult) (fun _ => Except.ok ())).errorMsg
      = none ∧
    (clickFlow (Except.error "No such file or directory: images/pfd.png")
      (fun _ => Except.ok sampleTwoNodeResult) (fun _ => Except.ok ())).uncaught
      = some "No such file or directory: images/pfd.png" ∧
    (clickFlow (Except.ok "QUJD") (fun _ => Except.ok sampleTwoNodeResult)
      (fun _ => Except.error "graph render failure")).jsonDumpShown
      = some sampleTwoNodeResult.dict :=
  ⟨rfl, rfl, rfl⟩

/-- Claim C1 (amended): every error raised inside the `try` block — the
service call (network transmission / response parsing) and the graph
rendering — is caught by the `except` at the outermost scope of the flow and
converted to a user-visible message containing the underlying error's
description; a failure at the service call leaves no output rendered, while
a failure during graph rendering leaves the already-rendered JSON dump in
place; an image-encoding error occurs before the `try` block and propagates
uncaught, with no user-visible message produced by the flow. -/
theorem try_block_errors_caught (base64_image : String)
    (svc : ChatRequest → Except String EquipmentExtraction)
    (renderGraph : EquipmentExtraction → Except String Unit) :
    (∀ e, svc (buildRequest base64_image) = Except.error e →
      clickFlow (Except.ok base64_image) svc renderGraph =
        { networkAttempted := true, jsonDumpShown := none, graphShown := false
          errorMsg := some ("Error processing the request: " ++ e)
          uncaught := none }) ∧
    (∀ r e, svc (buildRequest base64_image) = Except.ok r →
      renderGraph r = Except.error e →
      clickFlow (Except.ok base64_image) svc renderGraph =
        { networkAttempted := true, jsonDumpShown := some r.dict
          graphShown := false
          errorMsg := some ("Error processing the request: " ++ e)
          uncaught := none }) ∧
    (∀ e, clickFlow (Except.error e) svc renderGraph =
        { networkAttempted := false, jsonDumpShown := none, graphShown := false
          errorMsg := none, uncaught := some e }) := by
  refine ⟨?_, ?_, ?_⟩
  · intro e he
    simp [clickFlow, he]
  · intro r e hr hrend
    simp [clickFlow, hr, hrend]
  · intro e
    simp [clickFlow]

/-- Witness for C1 (amended): a concrete failing service call is caught and
displayed. -/
theorem try_block_errors_caught_witness :
    clickFlow (Except.ok "QUJD") (fun _ => Except.error "boom")
        (fun _ => Except.ok ()) =
      { networkAttempted := true, jsonDumpShown := none, graphShown := false
        errorMsg := some ("Error processing the request: " ++ "boom")
        uncaught := none } :=
  (try_block_errors_caught "QUJD" (fun _ => Except.error "boom")
    (fun _ => Except.ok ())).1 "boom" rfl

/-- Counterexample for C2: with the selected image file missing, the click
flow surfaces NO user-visible error message — `encode_image` raises before
the `try` block, so `st.error` never runs and the exception escapes the
handler uncaught. -/
theorem missing_file_no_user_visible_error :
    (clickFlow (encode_image (fun _ => none) "images/pfd.png")
      (fun _ => Except.ok sampleTwoNodeResult) (fun _ => Except.ok ())).errorMsg
      = none ∧
    (clickFlow (encode_image (fun _ => none) "images/pfd.png")
      (fun _ => Except.ok sampleTwoNodeResult) (fun _ => Except.ok ())).uncaught
      = some "No such file or directory: images/pfd.png" :=
  ⟨rfl, rfl⟩

/-- Claim C2 (amended): if the selected image file cannot be read, the click
flow does not attempt the network call; but the read error is not converted
to a user-visible message by the flow — it propagates uncaught out of the
click handler. -/
theorem missing_file_skips_network_call (fs : String → Option (List Nat))
    (image_path : String)
    (svc : ChatRequest → Except String EquipmentExtraction)
    (renderGraph : EquipmentExtraction → Except String Unit)
    (h : fs image_path = none) :
    (clickFlow (encode_image fs image_path) svc renderGraph).networkAttempted
      = false ∧
    (clickFlow (encode_image fs image_path) svc renderGraph).errorMsg = none ∧
    (clickFlow (encode_image fs image_path) svc renderGraph).uncaught =
      some ("No such file or directory: " ++ image_path) := by
  simp [encode_image, h, clickFlow]

/-- Witness for C2 (amended) on a filesystem with no readable files. -/
theorem missing_file_skips_network_call_witness :
    (clickFlow (encode_image (fun _ => none) "images/pfd.jpg")
      (fun _ => Except.ok sampleTwoNodeResult)
      (fun _ => Except.ok ())).networkAttempted = false ∧
    (clickFlow (encode_image (fun _ => none) "images/pfd.jpg")
      (fun _ => Except.ok sampleTwoNodeResult)
      (fun _ => Except.ok ())).errorMsg = none ∧
    (clickFlow (encode_image (fun _ => none) "images/pfd.jpg")
      (fun _ => Except.ok sampleTwoNodeResult)
      (fun _ => Except.ok ())).uncaught =
      some ("No such file or directory: " ++ "images/pfd.jpg") :=
  missing_file_skips_network_call (fun _ => none) "images/pfd.jpg"
    (fun _ => Except.ok sampleTwoNodeResult) (fun _ => Except.ok ()) rfl

/-- Claim C4: if the service call raises any error, neither the graph nor
the structured JSON dump is rendered, and the displayed message is the
literal prefix "Error processing the request: " followed by the error's
description — in particular it contains that description. -/
theorem service_error_nothing_rendered (base64_image e : String)
    (svc : ChatRequest → Except String EquipmentExtraction)
    (renderGraph : EquipmentExtraction → Except String Unit)
    (h : svc (buildRequest base64_image) = Except.error e) :
    (clickFlow (Except.ok base64_image) svc renderGraph).jsonDumpShown = none ∧
    (clickFlow (Except.ok base64_image) svc renderGraph).graphShown = false ∧
    (clickFlow (Except.ok base64_image) svc renderGraph).errorMsg =
      some ("Error processing the request: " ++ e) ∧
    ∃ p q, (clickFlow (Except.ok base64_image) svc renderGraph).errorMsg =
      some (p ++ e ++ q) := by
  refine ⟨?_, ?_, ?_, "Error processing the request: ", "", ?_⟩ <;>
    simp [clickFlow, h, String.append_empty]

/-- Witness for C4: a concrete timeout-style service error. -/
theorem service_error_nothing_rendered_witness :
    (clickFlow (Except.ok "QUJD") (fun _ => Except.error "Request timed out.")
      (fun _ => Except.ok ())).jsonDumpShown = none ∧
    (clickFlow (Except.ok "QUJD") (fun _ => Except.error "Request timed out.")
      (fun _ => Except.ok ())).graphShown = false ∧
    (clickFlow (Except.ok "QUJD") (fun _ => Except.error "Request timed out.")
      (fun _ => Except.ok ())).errorMsg =
      some ("Error processing the request: " ++ "Request timed out.") ∧
    ∃ p q, (clickFlow (Except.ok "QUJD")
      (fun _ => Except.error "Request timed out.")
      (fun _ => Except.ok ())).errorMsg = some (p ++ "Request timed out." ++ q) :=
  service_error_nothing_rendered "QUJD" "Request timed out."
    (fun _ => Except.error "Request timed out.") (fun _ => Except.ok ()) rfl

end ProcessId
